import Mathlib

/-
Shallow embedding of fred.rs `src/protocol/connection.rs`: the connection
layer of a Redis client.  Network effects are modelled by script-driven
pure transports (each send may fail according to a script, each receive
consumes the next scripted event), fallible Rust calls return `Except`,
and the `&mut` state the Rust functions touch (the client state flag, the
shared counters, the sink, the in-flight command) is threaded explicitly.
External collaborators that live outside this file's source (the command
type's classification predicates, the counters' atomic operations, the
frame codec's `to_string`) are modelled from the spec and marked as such.
-/

namespace FredConn

/-- Error kinds surfaced by this layer, from `error.rs` (collaborator). -/
inductive RedisErrorKind where
  | Auth
  | ProtocolError
  | Unknown
  | IoErr
  | Config
  | Canceled
  deriving Repr, DecidableEq

/-- A `RedisError`: a kind plus a human-readable detail string. -/
structure RedisError where
  kind : RedisErrorKind
  details : String
  deriving Repr, DecidableEq

/-- Constructor mirroring `RedisError::new(kind, details)`. -/
def RedisError.new (kind : RedisErrorKind) (details : String) : RedisError :=
  ⟨kind, details⟩

/-- Wire-protocol frames, from `redis_protocol::types::Frame` (collaborator).
Only the shapes this layer inspects are distinguished. -/
inductive Frame where
  | SimpleString (s : String)
  | Error (s : String)
  | Integer (i : Int)
  | BulkString (s : String)
  | Array (frames : List Frame)
  | Null
  deriving Repr

/-- Modelled from the spec: `Frame::is_error` of the codec collaborator —
true exactly on protocol-level error frames. -/
def Frame.is_error : Frame → Bool
  | .Error _ => true
  | _ => false

/-- Modelled from the spec: `Frame::to_string` of the codec collaborator —
converts textual frames to a string, `none` on non-textual shapes. -/
def Frame.to_string : Frame → Option String
  | .SimpleString s => some s
  | .BulkString s => some s
  | _ => none

/-- The contents of a simplestring OK response (`pub const OK`). -/
def OK : String := "OK"

/-- Client connection state flag, from `types.rs` (collaborator). -/
inductive ClientState where
  | Connected
  | Connecting
  | Disconnecting
  | Disconnected
  deriving Repr, DecidableEq

/-- Command kinds used by this layer, from `protocol/types.rs`
(collaborator); `Other` stands for the remaining user operations. -/
inductive RedisCommandKind where
  | Auth
  | ClientSetname
  | ClusterNodes
  | Quit
  | Multi
  | Exec
  | Discard
  | Other (name : String)
  deriving Repr, DecidableEq

/-- Modelled from the spec: the collaborator's classification predicate for
a command kind that ends a multi-command transaction. -/
def RedisCommandKind.ends_transaction : RedisCommandKind → Bool
  | .Exec => true
  | .Discard => true
  | _ => false

/-- An outgoing command: kind, argument list, attempt counter, and whether
its result-delivery channel is currently locked by a waiter
(`client_utils::is_locked_some(&resp_tx)`, a collaborator check modelled
as a boolean observation carried on the command). -/
structure RedisCommand where
  kind : RedisCommandKind
  args : List String
  attempted : Nat
  respTxLocked : Bool
  deriving Repr, DecidableEq

/-- Mirrors `RedisCommand::new(kind, args, None)`: fresh command with no
attempts and no result-delivery channel (hence not locked). -/
def RedisCommand.new (kind : RedisCommandKind) (args : List String) : RedisCommand :=
  ⟨kind, args, 0, false⟩

/-- Modelled from the spec: the collaborator's classification predicate for
a connection-terminating (QUIT-equivalent) command. -/
def RedisCommand.is_quit (c : RedisCommand) : Bool :=
  c.kind = RedisCommandKind.Quit

/-- Mirrors `RedisCommand::incr_attempted` (collaborator). -/
def RedisCommand.incr_attempted (c : RedisCommand) : RedisCommand :=
  { c with attempted := c.attempted + 1 }

/-- An unsplit framed transport, modelled as a script-driven state machine:
`sendScript` gives the outcome of each successive send (`none` = success,
exhausted script = success), `recvScript` the successive inbound events
(a decoded frame or a decode/IO error; an exhausted script means the peer
has closed the stream), and `sentFrames` logs the frames that reached the
wire, in order. -/
structure Transport where
  sendScript : List (Option RedisError)
  recvScript : List (Except RedisError Frame)
  sentFrames : List Frame
  deriving Repr

/-- One `transport.send(frame).await`: fails if the script says so,
otherwise appends the frame to the wire log. -/
def Transport.send (t : Transport) (f : Frame) : Except RedisError Transport :=
  match t.sendScript with
  | [] => .ok { t with sentFrames := t.sentFrames ++ [f] }
  | none :: rest => .ok { t with sendScript := rest, sentFrames := t.sentFrames ++ [f] }
  | some e :: _ => .error e

/-- One `transport.into_future().await`: yields the next inbound event and
the remaining transport; `none` means the stream has ended. -/
def Transport.intoFuture (t : Transport) : Option (Except RedisError Frame) × Transport :=
  match t.recvScript with
  | [] => (none, t)
  | ev :: rest => (some ev, { t with recvScript := rest })

/-- Embeds `request_response`: convert the command to a frame (fallible),
send it, then await one inbound event; a closed stream yields a synthetic
`Null` frame, an inbound error is propagated, and the transport is
returned for reuse. `toFrame` stands for the collaborator method
`RedisCommand::to_frame`. -/
def request_response (toFrame : RedisCommand → Except RedisError Frame)
    (transport : Transport) (request : RedisCommand) :
    Except RedisError (Frame × Transport) :=
  match toFrame request with
  | .error e => .error e
  | .ok frame =>
    match transport.send frame with
    | .error e => .error e
    | .ok transport =>
      match transport.intoFuture with
      | (some (.ok response), transport) => .ok (response, transport)
      | (some (.error e), _) => .error e
      | (none, transport) => .ok (Frame.Null, transport)

/-- Embeds `authenticate`: the optional credential (AUTH) step followed by
the unconditional naming (CLIENT SETNAME) step, each one round trip via
`request_response`, with the error classification of the source. -/
def authenticate (toFrame : RedisCommand → Except RedisError Frame)
    (transport : Transport) (name : String) (key : Option String) :
    Except RedisError Transport :=
  let set_name := fun (transport : Transport) =>
    let command := RedisCommand.new RedisCommandKind.ClientSetname [name]
    match request_response toFrame transport command with
    | .error e => .error e
    | .ok (response, transport) =>
      match response with
      | .SimpleString inner =>
        if inner = OK then .ok transport
        else .error (RedisError.new RedisErrorKind.ProtocolError inner)
      | other =>
        .error (RedisError.new RedisErrorKind.ProtocolError
          ("Failed to set client name: " ++ toString (repr other) ++ "."))
  match key with
  | some key =>
    let command := RedisCommand.new RedisCommandKind.Auth [key]
    match request_response toFrame transport command with
    | .error e => .error e
    | .ok (response, transport) =>
      match response with
      | .SimpleString inner =>
        if inner = OK then set_name transport
        else .error (RedisError.new RedisErrorKind.Auth inner)
      | other =>
        .error (RedisError.new RedisErrorKind.ProtocolError
          ("Invalid auth response " ++ toString (repr other) ++ "."))
  | none => set_name transport

/-- The read-only client configuration this layer consumes: desired client
name, optional authentication credential (`config.read().key()`), and
whether encryption is configured (`config.read().tls().is_some()`). -/
structure ClientConfig where
  clientName : String
  authKey : Option String
  usesTls : Bool
  deriving Repr, DecidableEq

/-- The shared client context (`Arc<RedisClientInner>`) as far as this
layer touches it: the read-only configuration and the mutable
connection-state flag. -/
structure ClientInner where
  config : ClientConfig
  state : ClientState
  deriving Repr, DecidableEq

/-- The network environment at one resolved address: the outcome of the
raw socket connect, the outcome of the TLS connector setup plus handshake
(consulted only on the encrypted path), and the framed transport obtained
when the connect succeeds. -/
structure NetEnv where
  connectResult : Option RedisError
  tlsResult : Option RedisError
  transport : Transport
  deriving Repr

/-- The connect-then-authenticate sequence of
`create_authenticated_connection` up to (not including) the state-flag
update: open the raw socket (the codec wrapping and the diagnostic server
label carry no semantics here) and run the two-step `authenticate`; it
reads only the client configuration. -/
def connect_and_auth (toFrame : RedisCommand → Except RedisError Frame)
    (env : NetEnv) (cfg : ClientConfig) : Except RedisError Transport :=
  match env.connectResult with
  | some e => .error e
  | none => authenticate toFrame env.transport cfg.clientName cfg.authKey

/-- The connect, TLS handshake (connector setup and handshake folded into
`tlsResult`), then authenticate sequence of
`create_authenticated_connection_tls` (the `enable-tls` build), up to
(not including) the state-flag update. -/
def connect_and_auth_tls (toFrame : RedisCommand → Except RedisError Frame)
    (env : NetEnv) (cfg : ClientConfig) : Except RedisError Transport :=
  match env.connectResult with
  | some e => .error e
  | none =>
    match env.tlsResult with
    | some e => .error e
    | none => authenticate toFrame env.transport cfg.clientName cfg.authKey

/-- Embeds `create_authenticated_connection`: connect and authenticate,
and only on success set the client state flag to `Connected`; every
failure is propagated with the state flag untouched. -/
def create_authenticated_connection (toFrame : RedisCommand → Except RedisError Frame)
    (env : NetEnv) (inner : ClientInner) :
    Except RedisError Transport × ClientInner :=
  match connect_and_auth toFrame env inner.config with
  | .error e => (.error e, inner)
  | .ok framed => (.ok framed, { inner with state := ClientState.Connected })

/-- Embeds `create_authenticated_connection_tls` (with the `enable-tls`
feature): connect, perform the TLS handshake, authenticate, and set
`Connected` on success exactly as the plain variant. -/
def create_authenticated_connection_tls (toFrame : RedisCommand → Except RedisError Frame)
    (env : NetEnv) (inner : ClientInner) :
    Except RedisError Transport × ClientInner :=
  match connect_and_auth_tls toFrame env inner.config with
  | .error e => (.error e, inner)
  | .ok framed => (.ok framed, { inner with state := ClientState.Connected })

/-- The routing cache parsed from a topology reply
(`ClusterKeyCache`, a collaborator in `protocol/types.rs`); its grammar
is owned by the parsing collaborator, so it is kept abstract as the raw
payload it was built from. -/
structure ClusterKeyCache where
  raw : String
  deriving Repr, DecidableEq

/-- One seed node of cluster discovery: its configured host and port, the
resolver's answer for it, and the network environment behind the resolved
address. -/
structure SeedEnv where
  host : String
  port : Nat
  resolveResult : Except RedisError String
  net : NetEnv
  deriving Repr

/-- The topology-query tail of `read_cluster_state`, factored out of the
state threading: send the CLUSTER NODES command via `request_response`
over the disposable connection (the returned transport is discarded),
reject protocol-level error frames, convert the reply to text, and parse
it; every failure yields `none`.  `parse` stands for the collaborator
`ClusterKeyCache::new(Some(text))`. -/
def query_topology (toFrame : RedisCommand → Except RedisError Frame)
    (parse : String → Except RedisError ClusterKeyCache)
    (connection : Transport) : Option ClusterKeyCache :=
  let command := RedisCommand.new RedisCommandKind.ClusterNodes []
  match request_response toFrame connection command with
  | .error _ => none
  | .ok (frame, _) =>
    if frame.is_error then none
    else
      match frame.to_string with
      | none => none
      | some cluster_state =>
        match parse cluster_state with
        | .ok cache => some cache
        | .error _ => none

/-- Embeds `read_cluster_state` for one seed: resolve, open a disposable
authenticated connection (TLS or plain according to `uses_tls`), then run
the topology query; every failure yields `none`.  The threaded
`ClientInner` carries the state-flag side effect of the connection
factory. -/
def read_cluster_state (toFrame : RedisCommand → Except RedisError Frame)
    (parse : String → Except RedisError ClusterKeyCache)
    (inner : ClientInner) (env : SeedEnv) (uses_tls : Bool) :
    Option ClusterKeyCache × ClientInner :=
  match env.resolveResult with
  | .error _ => (none, inner)
  | .ok _addr =>
    let connected :=
      if uses_tls then create_authenticated_connection_tls toFrame env.net inner
      else create_authenticated_connection toFrame env.net inner
    match connected with
    | (.error _, inner) => (none, inner)
    | (.ok connection, inner) => (query_topology toFrame parse connection, inner)

/-- The loop body of `read_cluster_nodes`: try each seed in order, return
the first successful cache, thread the state-flag side effects, and fail
with the Unknown error once every seed is exhausted. -/
def read_cluster_nodes_loop (toFrame : RedisCommand → Except RedisError Frame)
    (parse : String → Except RedisError ClusterKeyCache) (uses_tls : Bool) :
    List SeedEnv → ClientInner → Except RedisError ClusterKeyCache × ClientInner
  | [], inner =>
    (.error (RedisError.new RedisErrorKind.Unknown
      "Could not read cluster state from any known node in the cluster."), inner)
  | seed :: rest, inner =>
    match read_cluster_state toFrame parse inner seed uses_tls with
    | (some cache, inner) => (.ok cache, inner)
    | (none, inner) => read_cluster_nodes_loop toFrame parse uses_tls rest inner

/-- Embeds `read_cluster_nodes`: read the configured seed list
(`read_clustered_hosts`, fallible, passed in as its `Except` result),
read the TLS setting, and scan the seeds in order. -/
def read_cluster_nodes (toFrame : RedisCommand → Except RedisError Frame)
    (parse : String → Except RedisError ClusterKeyCache)
    (inner : ClientInner) (known_nodes : Except RedisError (List SeedEnv)) :
    Except RedisError ClusterKeyCache × ClientInner :=
  match known_nodes with
  | .error e => (.error e, inner)
  | .ok seeds => read_cluster_nodes_loop toFrame parse inner.config.usesTls seeds inner

/-- Modelled from the spec: the shared `Counters` of the multiplexer — the
in-flight count and the feed count, plus the advisory `should_send`
signal, which the spec directs to treat as an opaque boolean queried by
the dispatcher rather than something this layer computes. -/
structure Counters where
  shouldSendFlag : Bool
  feedCount : Nat
  inFlight : Nat
  deriving Repr, DecidableEq

/-- Modelled from the spec: the opaque advisory `Counters::should_send`. -/
def Counters.should_send (c : Counters) : Bool := c.shouldSendFlag

/-- Modelled from the spec: `Counters::reset_feed_count`. -/
def Counters.reset_feed_count (c : Counters) : Counters :=
  { c with feedCount := 0 }

/-- Modelled from the spec: `Counters::incr_feed_count`. -/
def Counters.incr_feed_count (c : Counters) : Counters :=
  { c with feedCount := c.feedCount + 1 }

/-- Modelled from the spec: `Counters::incr_in_flight`. -/
def Counters.incr_in_flight (c : Counters) : Counters :=
  { c with inFlight := c.inFlight + 1 }

/-- A split write half, modelled as the sink's outbound buffer and the
wire, driven by a failure script: `feed` buffers a frame without
flushing, `send` flushes the buffer and the frame to the wire. -/
structure Sink where
  failScript : List (Option RedisError)
  buffered : List Frame
  wire : List Frame
  deriving Repr

/-- One `sink.send(frame).await`: on success every buffered frame plus
this one reaches the wire and the buffer empties. -/
def Sink.send (s : Sink) (f : Frame) : Except RedisError Sink :=
  match s.failScript with
  | some e :: _ => .error e
  | none :: rest => .ok ⟨rest, [], s.wire ++ s.buffered ++ [f]⟩
  | [] => .ok ⟨[], [], s.wire ++ s.buffered ++ [f]⟩

/-- One `sink.feed(frame).await`: on success the frame joins the outbound
buffer and nothing reaches the wire. -/
def Sink.feed (s : Sink) (f : Frame) : Except RedisError Sink :=
  match s.failScript with
  | some e :: _ => .error e
  | none :: rest => .ok ⟨rest, s.buffered ++ [f], s.wire⟩
  | [] => .ok ⟨[], s.buffered ++ [f], s.wire⟩

/-- The write half behind its variant tag (`RedisSink::Tls`/`Tcp`). -/
inductive RedisSink where
  | Tls (sink : Sink)
  | Tcp (sink : Sink)
  deriving Repr

/-- Dispatch of `send` over the variant tag, as in `write_command`. -/
def RedisSink.send (s : RedisSink) (f : Frame) : Except RedisError RedisSink :=
  match s with
  | .Tcp inner => (inner.send f).map RedisSink.Tcp
  | .Tls inner => (inner.send f).map RedisSink.Tls

/-- Dispatch of `feed` over the variant tag, as in `write_command`. -/
def RedisSink.feed (s : RedisSink) (f : Frame) : Except RedisError RedisSink :=
  match s with
  | .Tcp inner => (inner.feed f).map RedisSink.Tcp
  | .Tls inner => (inner.feed f).map RedisSink.Tls

/-- A command being dispatched (`SentCommand` of the multiplexer, the two
fields this layer touches): the command and its network-start timestamp,
an `Instant` modelled as a natural number. -/
structure SentCommand where
  command : RedisCommand
  networkStart : Option Nat
  deriving Repr, DecidableEq

/-- The mutable state `write_command` touches: the write half, the shared
counters, and the in-flight command. -/
structure WriteState where
  sink : RedisSink
  counters : Counters
  command : SentCommand
  deriving Repr

/-- The `should_flush` condition of `write_command`, as a standalone
predicate: flush when the advisory `should_send` signal is set, the
command is QUIT-equivalent, its kind ends a transaction, or its result
channel is locked by a waiter. -/
def flush_condition (counters : Counters) (command : RedisCommand) : Bool :=
  counters.should_send || command.is_quit
    || command.kind.ends_transaction || command.respTxLocked

/-- Embeds `write_command`: build the frame (fallible, before any
mutation), increment the attempt counter and stamp the network-start
time, decide the flush condition (`should_send`, QUIT-equivalent, ends a
transaction, or the result channel is locked), then flush-and-reset or
feed-and-increment, and finally increment the in-flight counter.  `now`
stands for `Instant::now()`; the tracing calls carry no semantics.  The
second component returns the state the mutations reached, also when the
first component is an error. -/
def write_command (toFrame : RedisCommand → Except RedisError Frame)
    (now : Nat) (st : WriteState) : Except RedisError Unit × WriteState :=
  match toFrame st.command.command with
  | .error e => (.error e, st)
  | .ok frame =>
    let command : SentCommand :=
      { command := st.command.command.incr_attempted, networkStart := some now }
    let should_flush := flush_condition st.counters st.command.command.incr_attempted
    if should_flush then
      match st.sink.send frame with
      | .error e => (.error e, { st with command := command })
      | .ok sink =>
        let counters := st.counters.reset_feed_count
        let counters := counters.incr_in_flight
        (.ok (), ⟨sink, counters, command⟩)
    else
      match st.sink.feed frame with
      | .error e => (.error e, { st with command := command })
      | .ok sink =>
        let counters := st.counters.incr_feed_count
        let counters := counters.incr_in_flight
        (.ok (), ⟨sink, counters, command⟩)

/-- The per-seed outcome of `read_cluster_state` (its first component),
which depends on the client context only through the read-only
configuration; stated at a fixed state flag and related to the real
function by `read_cluster_state_fst_config`. -/
def seedResult (toFrame : RedisCommand → Except RedisError Frame)
    (parse : String → Except RedisError ClusterKeyCache)
    (cfg : ClientConfig) (env : SeedEnv) (uses_tls : Bool) : Option ClusterKeyCache :=
  (read_cluster_state toFrame parse ⟨cfg, ClientState.Disconnected⟩ env uses_tls).1

/-- The error the next sink operation (send or feed alike) will fail
with, if any, read off the sink's failure script. -/
def Sink.nextFail (s : Sink) : Option RedisError :=
  match s.failScript with
  | some e :: _ => some e
  | _ => none

/-- Projection of the write half out of its variant tag. -/
def RedisSink.sinkOf : RedisSink → Sink
  | .Tcp s => s
  | .Tls s => s

/-- `Sink.nextFail` lifted over the variant tag. -/
def RedisSink.nextFail (s : RedisSink) : Option RedisError :=
  s.sinkOf.nextFail

/-- Concrete witness data: a frame conversion that always succeeds,
encoding the argument list as an array of bulk strings. -/
def toFrameW : RedisCommand → Except RedisError Frame :=
  fun c => .ok (Frame.Array (Frame.BulkString "CMD" :: c.args.map Frame.BulkString))

/-- Concrete witness data: a topology parser that accepts every payload. -/
def parseW : String → Except RedisError ClusterKeyCache :=
  fun s => .ok ⟨s⟩

/-- Concrete witness data: a topology parser that rejects every payload. -/
def parseFailW : String → Except RedisError ClusterKeyCache :=
  fun _ => .error (RedisError.new RedisErrorKind.ProtocolError "bad topology")

/-- Concrete witness data: an I/O error. -/
def errW : RedisError := RedisError.new RedisErrorKind.IoErr "io error"

/-- Concrete witness data: a client configuration without a credential. -/
def cfgW : ClientConfig := ⟨"deadpool-1", none, false⟩

/-- Concrete witness data: a client context in the disconnected state. -/
def innerW : ClientInner := ⟨cfgW, ClientState.Disconnected⟩

/-- Concrete witness data: a transport whose peer replies OK twice. -/
def transportOkOkW : Transport :=
  ⟨[], [.ok (Frame.SimpleString "OK"), .ok (Frame.SimpleString "OK")], []⟩

/-- Concrete witness data: a seed whose hostname fails to resolve. -/
def seedResolveFailW : SeedEnv :=
  ⟨"a.example", 7000, .error (RedisError.new RedisErrorKind.IoErr "dns"), ⟨none, none, ⟨[], [], []⟩⟩⟩

/-- Concrete witness data: a seed whose socket connect fails. -/
def seedConnectFailW : SeedEnv :=
  ⟨"b.example", 7000, .ok "10.0.0.2", ⟨some errW, none, ⟨[], [], []⟩⟩⟩

/-- Concrete witness data: a seed whose topology request fails with an
inbound decode error after a successful handshake. -/
def seedRequestFailW : SeedEnv :=
  ⟨"c.example", 7000, .ok "10.0.0.3",
    ⟨none, none, ⟨[], [.ok (Frame.SimpleString "OK"), .error errW], []⟩⟩⟩

/-- Concrete witness data: a seed that answers the topology query with a
protocol-level error frame. -/
def seedErrorFrameW : SeedEnv :=
  ⟨"d.example", 7000, .ok "10.0.0.4",
    ⟨none, none, ⟨[], [.ok (Frame.SimpleString "OK"), .ok (Frame.Error "LOADING")], []⟩⟩⟩

/-- Concrete witness data: a seed that answers the topology query with a
non-textual frame, so text conversion fails. -/
def seedNoTextW : SeedEnv :=
  ⟨"e.example", 7000, .ok "10.0.0.5",
    ⟨none, none, ⟨[], [.ok (Frame.SimpleString "OK"), .ok (Frame.Integer 3)], []⟩⟩⟩

/-- Concrete witness data: a seed that answers the topology query with
the given textual payload, handed to the parser in use. -/
def seedTopologyW (payload : String) : SeedEnv :=
  ⟨"f.example", 7000, .ok "10.0.0.6",
    ⟨none, none, ⟨[], [.ok (Frame.SimpleString "OK"), .ok (Frame.BulkString payload)], []⟩⟩⟩

/-- The kind of the error a fallible result failed with, if it failed. -/
def errorKind {α : Type} : Except RedisError α → Option RedisErrorKind
  | .error e => some e.kind
  | .ok _ => none

theorem request_response_ok_log (toFrame : RedisCommand → Except RedisError Frame)
    (t : Transport) (c : RedisCommand) (frame f : Frame) (t' : Transport)
    (hc : toFrame c = .ok frame)
    (h : request_response toFrame t c = .ok (f, t')) :
    t'.sentFrames = t.sentFrames ++ [frame] ∧ t'.recvScript = t.recvScript.drop 1 := by
  obtain ⟨ss, rs, sf⟩ := t
  simp only [request_response, hc, Transport.send] at h
  rcases ss with _ | ⟨e?, ss⟩
  · simp only [Transport.intoFuture] at h
    rcases rs with _ | ⟨ev, rs⟩
    · simp only [Except.ok.injEq, Prod.mk.injEq] at h
      simp [← h.2]
    · rcases ev with e | fr
      · simp at h
      · simp only [Except.ok.injEq, Prod.mk.injEq] at h
        simp [← h.2]
  · rcases e? with _ | e
    · simp only [Transport.intoFuture] at h
      rcases rs with _ | ⟨ev, rs⟩
      · simp only [Except.ok.injEq, Prod.mk.injEq] at h
        simp [← h.2]
      · rcases ev with e | fr
        · simp at h
        · simp only [Except.ok.injEq, Prod.mk.injEq] at h
          simp [← h.2]
    · simp at h

/-- Claim C6: on an unsplit transport, if the peer closes the stream
before sending any reply the Request/Response Primitive returns
successfully with a synthetic null frame, while an I/O error during the
send and a decode/IO error during the receive are each propagated
unchanged. -/
theorem request_response_close_yields_null :
    (∀ (toFrame : RedisCommand → Except RedisError Frame) (t : Transport)
       (c : RedisCommand) (frame : Frame) (t1 : Transport),
       toFrame c = .ok frame → t.send frame = .ok t1 → t1.recvScript = [] →
       request_response toFrame t c = .ok (Frame.Null, t1))
    ∧ (∀ (toFrame : RedisCommand → Except RedisError Frame) (t : Transport)
       (c : RedisCommand) (frame : Frame) (e : RedisError),
       toFrame c = .ok frame → t.send frame = .error e →
       request_response toFrame t c = .error e)
    ∧ (∀ (toFrame : RedisCommand → Except RedisError Frame) (t : Transport)
       (c : RedisCommand) (frame : Frame) (t1 : Transport) (e : RedisError)
       (rest : List (Except RedisError Frame)),
       toFrame c = .ok frame → t.send frame = .ok t1 →
       t1.recvScript = .error e :: rest →
       request_response toFrame t c = .error e) := by
  refine ⟨?_, ?_, ?_⟩
  · intro toFrame t c frame t1 hc hs hr
    simp [request_response, hc, hs, Transport.intoFuture, hr]
  · intro toFrame t c frame e hc hs
    simp [request_response, hc, hs]
  · intro toFrame t c frame t1 e rest hc hs hr
    simp [request_response, hc, hs, Transport.intoFuture, hr]

/-- Witness for C6 at concrete transports: a peer that closes immediately
yields a null reply, a failing send propagates the I/O error, and an
inbound decode error propagates unchanged. -/
theorem request_response_close_yields_null_witness :
    request_response toFrameW ⟨[], [], []⟩ (RedisCommand.new RedisCommandKind.ClusterNodes [])
      = .ok (Frame.Null, ⟨[], [], [Frame.Array [Frame.BulkString "CMD"]]⟩)
    ∧ request_response toFrameW ⟨[some errW], [], []⟩
        (RedisCommand.new RedisCommandKind.ClusterNodes []) = .error errW
    ∧ request_response toFrameW ⟨[], [.error errW], []⟩
        (RedisCommand.new RedisCommandKind.ClusterNodes []) = .error errW := by
  refine ⟨?_, ?_, ?_⟩
  · exact request_response_close_yields_null.1 toFrameW ⟨[], [], []⟩
      (RedisCommand.new RedisCommandKind.ClusterNodes [])
      (Frame.Array [Frame.BulkString "CMD"]) ⟨[], [], [Frame.Array [Frame.BulkString "CMD"]]⟩
      rfl rfl rfl
  · exact request_response_close_yields_null.2.1 toFrameW ⟨[some errW], [], []⟩
      (RedisCommand.new RedisCommandKind.ClusterNodes [])
      (Frame.Array [Frame.BulkString "CMD"]) errW rfl rfl
  · exact request_response_close_yields_null.2.2 toFrameW ⟨[], [.error errW], []⟩
      (RedisCommand.new RedisCommandKind.ClusterNodes [])
      (Frame.Array [Frame.BulkString "CMD"]) ⟨[], [.error errW], [Frame.Array [Frame.BulkString "CMD"]]⟩
      errW [] rfl rfl rfl

/-- Claim C4: classification of every non-OK reply to a setup step.  In
the credential step a simple string other than OK fails with an
Authentication error carrying the reply text, and a non-simple-string
reply fails with a Protocol error; in the naming step (reached with no
credential configured, or after an OK credential reply) a simple string
other than OK fails with a Protocol error carrying the reply text, and a
non-simple-string reply fails with a Protocol error. -/
theorem authenticate_reply_classification :
    (∀ (toFrame : RedisCommand → Except RedisError Frame) (t : Transport)
       (name k : String) (af : Frame) (t1 t2 : Transport) (s : String),
       toFrame (RedisCommand.new RedisCommandKind.Auth [k]) = .ok af →
       t.send af = .ok t1 → t1.intoFuture = (some (.ok (Frame.SimpleString s)), t2) →
       s ≠ OK →
       authenticate toFrame t name (some k) = .error (RedisError.new RedisErrorKind.Auth s))
    ∧ (∀ (toFrame : RedisCommand → Except RedisError Frame) (t : Transport)
       (name k : String) (af : Frame) (t1 t2 : Transport) (f : Frame),
       toFrame (RedisCommand.new RedisCommandKind.Auth [k]) = .ok af →
       t.send af = .ok t1 → t1.intoFuture = (some (.ok f), t2) →
       (∀ s, f ≠ Frame.SimpleString s) →
       errorKind (authenticate toFrame t name (some k)) = some RedisErrorKind.ProtocolError)
    ∧ (∀ (toFrame : RedisCommand → Except RedisError Frame) (t : Transport)
       (name : String) (sf : Frame) (t1 t2 : Transport) (s : String),
       toFrame (RedisCommand.new RedisCommandKind.ClientSetname [name]) = .ok sf →
       t.send sf = .ok t1 → t1.intoFuture = (some (.ok (Frame.SimpleString s)), t2) →
       s ≠ OK →
       authenticate toFrame t name none = .error (RedisError.new RedisErrorKind.ProtocolError s))
    ∧ (∀ (toFrame : RedisCommand → Except RedisError Frame) (t : Transport)
       (name : String) (sf : Frame) (t1 t2 : Transport) (f : Frame),
       toFrame (RedisCommand.new RedisCommandKind.ClientSetname [name]) = .ok sf →
       t.send sf = .ok t1 → t1.intoFuture = (some (.ok f), t2) →
       (∀ s, f ≠ Frame.SimpleString s) →
       errorKind (authenticate toFrame t name none) = some RedisErrorKind.ProtocolError)
    ∧ (∀ (toFrame : RedisCommand → Except RedisError Frame) (t : Transport)
       (name k : String) (af sf : Frame) (t1 t2 t3 t4 : Transport) (s : String),
       toFrame (RedisCommand.new RedisCommandKind.Auth [k]) = .ok af →
       t.send af = .ok t1 → t1.intoFuture = (some (.ok (Frame.SimpleString OK)), t2) →
       toFrame (RedisCommand.new RedisCommandKind.ClientSetname [name]) = .ok sf →
       t2.send sf = .ok t3 → t3.intoFuture = (some (.ok (Frame.SimpleString s)), t4) →
       s ≠ OK →
       authenticate toFrame t name (some k) = .error (RedisError.new RedisErrorKind.ProtocolError s))
    ∧ (∀ (toFrame : RedisCommand → Except RedisError Frame) (t : Transport)
       (name k : String) (af sf : Frame) (t1 t2 t3 t4 : Transport) (f : Frame),
       toFrame (RedisCommand.new RedisCommandKind.Auth [k]) = .ok af →
       t.send af = .ok t1 → t1.intoFuture = (some (.ok (Frame.SimpleString OK)), t2) →
       toFrame (RedisCommand.new RedisCommandKind.ClientSetname [name]) = .ok sf →
       t2.send sf = .ok t3 → t3.intoFuture = (some (.ok f), t4) →
       (∀ s, f ≠ Frame.SimpleString s) →
       errorKind (authenticate toFrame t name (some k)) = some RedisErrorKind.ProtocolError) := by
  refine ⟨?_, ?_, ?_, ?_, ?_, ?_⟩
  · intro toFrame t name k af t1 t2 s hc hs hr hne
    simp [authenticate, request_response, hc, hs, hr, hne]
  · intro toFrame t name k af t1 t2 f hc hs hr hf
    cases f with
    | SimpleString s => exact absurd rfl (hf s)
    | _ => simp [authenticate, request_response, hc, hs, hr, errorKind, RedisError.new]
  · intro toFrame t name sf t1 t2 s hc hs hr hne
    simp [authenticate, request_response, hc, hs, hr, hne]
  · intro toFrame t name sf t1 t2 f hc hs hr hf
    cases f with
    | SimpleString s => exact absurd rfl (hf s)
    | _ => simp [authenticate, request_response, hc, hs, hr, errorKind, RedisError.new]
  · intro toFrame t name k af sf t1 t2 t3 t4 s hca hsa hra hcs hss hrs hne
    simp [authenticate, request_response, hca, hsa, hra, hcs, hss, hrs, hne]
  · intro toFrame t name k af sf t1 t2 t3 t4 f hca hsa hra hcs hss hrs hf
    cases f with
    | SimpleString s => exact absurd rfl (hf s)
    | _ => simp [authenticate, request_response, hca, hsa, hra, hcs, hss, hrs, errorKind, RedisError.new]

/-- Witness for C4 at concrete transports: a rejected credential reply, a
non-simple credential reply, a rejected naming reply without and with a
preceding credential step, and a non-simple naming reply both ways. -/
theorem authenticate_reply_classification_witness :
    authenticate toFrameW ⟨[], [.ok (Frame.SimpleString "NOPE")], []⟩ "deadpool-1" (some "pw")
      = .error (RedisError.new RedisErrorKind.Auth "NOPE")
    ∧ errorKind (authenticate toFrameW ⟨[], [.ok (Frame.Integer 3)], []⟩ "deadpool-1" (some "pw"))
        = some RedisErrorKind.ProtocolError
    ∧ authenticate toFrameW ⟨[], [.ok (Frame.SimpleString "MEH")], []⟩ "deadpool-1" none
      = .error (RedisError.new RedisErrorKind.ProtocolError "MEH")
    ∧ errorKind (authenticate toFrameW ⟨[], [.ok Frame.Null], []⟩ "deadpool-1" none)
        = some RedisErrorKind.ProtocolError
    ∧ authenticate toFrameW
        ⟨[], [.ok (Frame.SimpleString "OK"), .ok (Frame.SimpleString "MEH")], []⟩
        "deadpool-1" (some "pw")
      = .error (RedisError.new RedisErrorKind.ProtocolError "MEH")
    ∧ errorKind (authenticate toFrameW
        ⟨[], [.ok (Frame.SimpleString "OK"), .ok (Frame.BulkString "OK")], []⟩
        "deadpool-1" (some "pw"))
      = some RedisErrorKind.ProtocolError := by
  refine ⟨?_, ?_, ?_, ?_, ?_, ?_⟩
  · exact authenticate_reply_classification.1 toFrameW _ "deadpool-1" "pw" _ _ _ "NOPE"
      rfl rfl rfl (by decide)
  · exact authenticate_reply_classification.2.1 toFrameW _ "deadpool-1" "pw" _ _ _
      (Frame.Integer 3) rfl rfl rfl (by intro s h; cases h)
  · exact authenticate_reply_classification.2.2.1 toFrameW _ "deadpool-1" _ _ _ "MEH"
      rfl rfl rfl (by decide)
  · exact authenticate_reply_classification.2.2.2.1 toFrameW _ "deadpool-1" _ _ _
      Frame.Null rfl rfl rfl (by intro s h; cases h)
  · exact authenticate_reply_classification.2.2.2.2.1 toFrameW _ "deadpool-1" "pw" _ _ _ _ _ _ "MEH"
      rfl rfl rfl rfl rfl rfl (by decide)
  · exact authenticate_reply_classification.2.2.2.2.2 toFrameW _ "deadpool-1" "pw" _ _ _ _ _ _
      (Frame.BulkString "OK") rfl rfl rfl rfl rfl rfl (by intro s h; cases h)

/-- Claim C5: on every completed run the Authenticator sends the
credential (AUTH) frame iff a credential is configured, sends the naming
(CLIENT SETNAME) frame exactly once, and sends it strictly after the
credential step's reply has been observed: with no credential the wire
log gains exactly the naming frame and one inbound event is consumed;
with a credential it gains exactly the credential frame followed by the
naming frame, with two inbound events consumed in between. -/
theorem authenticate_send_discipline :
    (∀ (toFrame : RedisCommand → Except RedisError Frame) (t : Transport)
       (name : String) (sf : Frame) (t' : Transport),
       toFrame (RedisCommand.new RedisCommandKind.ClientSetname [name]) = .ok sf →
       authenticate toFrame t name none = .ok t' →
       t'.sentFrames = t.sentFrames ++ [sf] ∧ t'.recvScript = t.recvScript.drop 1)
    ∧ (∀ (toFrame : RedisCommand → Except RedisError Frame) (t : Transport)
       (name k : String) (af sf : Frame) (t' : Transport),
       toFrame (RedisCommand.new RedisCommandKind.Auth [k]) = .ok af →
       toFrame (RedisCommand.new RedisCommandKind.ClientSetname [name]) = .ok sf →
       authenticate toFrame t name (some k) = .ok t' →
       t'.sentFrames = t.sentFrames ++ [af, sf] ∧ t'.recvScript = t.recvScript.drop 2) := by
  constructor
  · intro toFrame t name sf t' hcs h
    simp only [authenticate] at h
    cases h1 : request_response toFrame t (RedisCommand.new RedisCommandKind.ClientSetname [name]) with
    | error e => rw [h1] at h; cases h
    | ok p =>
      obtain ⟨resp, t1⟩ := p
      rw [h1] at h
      cases resp with
      | SimpleString inner =>
        by_cases hin : inner = OK
        · simp only [hin, if_pos rfl] at h
          injection h with h
          subst h
          exact request_response_ok_log toFrame t _ sf (Frame.SimpleString inner) _ hcs h1
        · simp [hin] at h
      | Error s => cases h
      | Integer i => cases h
      | BulkString s => cases h
      | Array l => cases h
      | Null => cases h
  · intro toFrame t name k af sf t' hca hcs h
    simp only [authenticate] at h
    cases h1 : request_response toFrame t (RedisCommand.new RedisCommandKind.Auth [k]) with
    | error e => rw [h1] at h; cases h
    | ok p =>
      obtain ⟨resp, t2⟩ := p
      rw [h1] at h
      cases resp with
      | SimpleString inner =>
        by_cases hin : inner = OK
        · simp only [hin, if_pos rfl] at h
          obtain ⟨l1, r1⟩ :=
            request_response_ok_log toFrame t _ af (Frame.SimpleString inner) t2 hca h1
          cases h2 : request_response toFrame t2
              (RedisCommand.new RedisCommandKind.ClientSetname [name]) with
          | error e => rw [h2] at h; cases h
          | ok p2 =>
            obtain ⟨resp2, t3⟩ := p2
            rw [h2] at h
            cases resp2 with
            | SimpleString inner2 =>
              by_cases hin2 : inner2 = OK
              · simp only [hin2, if_pos rfl] at h
                injection h with h
                subst h
                obtain ⟨l2, r2⟩ :=
                  request_response_ok_log toFrame t2 _ sf (Frame.SimpleString inner2) _ hcs h2
                refine ⟨?_, ?_⟩
                · rw [l2, l1, List.append_assoc]
                  rfl
                · rw [r2, r1, List.drop_drop]
              · simp [hin2] at h
            | Error s => cases h
            | Integer i => cases h
            | BulkString s => cases h
            | Array l => cases h
            | Null => cases h
        · simp [hin] at h
      | Error s => cases h
      | Integer i => cases h
      | BulkString s => cases h
      | Array l => cases h
      | Null => cases h

/-- Witness for C5 at concrete transports: with no credential exactly the
naming frame is sent; with a credential the credential frame is sent
first and the naming frame second, after the first reply. -/
theorem authenticate_send_discipline_witness :
    (Transport.mk [] [] [Frame.Array [Frame.BulkString "CMD", Frame.BulkString "deadpool-1"]]).sentFrames
      = ([] : List Frame) ++ [Frame.Array [Frame.BulkString "CMD", Frame.BulkString "deadpool-1"]]
    ∧ (Transport.mk [] []
        [Frame.Array [Frame.BulkString "CMD", Frame.BulkString "pw"],
         Frame.Array [Frame.BulkString "CMD", Frame.BulkString "deadpool-1"]]).sentFrames
      = ([] : List Frame)
        ++ [Frame.Array [Frame.BulkString "CMD", Frame.BulkString "pw"],
            Frame.Array [Frame.BulkString "CMD", Frame.BulkString "deadpool-1"]] := by
  constructor
  · exact (authenticate_send_discipline.1 toFrameW
      ⟨[], [.ok (Frame.SimpleString "OK")], []⟩ "deadpool-1" _ _ rfl rfl).1
  · exact (authenticate_send_discipline.2 toFrameW transportOkOkW "deadpool-1" "pw" _ _ _
      rfl rfl rfl).1

theorem create_authenticated_connection_ok_state
    (toFrame : RedisCommand → Except RedisError Frame) (env : NetEnv)
    (inner inner1 : ClientInner) (tr : Transport)
    (h : create_authenticated_connection toFrame env inner = (.ok tr, inner1)) :
    inner1 = { inner with state := ClientState.Connected } := by
  unfold create_authenticated_connection at h
  cases hca : connect_and_auth toFrame env inner.config with
  | error e => rw [hca] at h; cases h
  | ok fr => rw [hca] at h; cases h; rfl

theorem create_authenticated_connection_error_state
    (toFrame : RedisCommand → Except RedisError Frame) (env : NetEnv)
    (inner inner1 : ClientInner) (e : RedisError)
    (h : create_authenticated_connection toFrame env inner = (.error e, inner1)) :
    inner1 = inner := by
  unfold create_authenticated_connection at h
  cases hca : connect_and_auth toFrame env inner.config with
  | error e2 => rw [hca] at h; cases h; rfl
  | ok fr => rw [hca] at h; cases h

theorem create_authenticated_connection_tls_ok_state
    (toFrame : RedisCommand → Except RedisError Frame) (env : NetEnv)
    (inner inner1 : ClientInner) (tr : Transport)
    (h : create_authenticated_connection_tls toFrame env inner = (.ok tr, inner1)) :
    inner1 = { inner with state := ClientState.Connected } := by
  unfold create_authenticated_connection_tls at h
  cases hca : connect_and_auth_tls toFrame env inner.config with
  | error e => rw [hca] at h; cases h
  | ok fr => rw [hca] at h; cases h; rfl

theorem create_authenticated_connection_tls_error_state
    (toFrame : RedisCommand → Except RedisError Frame) (env : NetEnv)
    (inner inner1 : ClientInner) (e : RedisError)
    (h : create_authenticated_connection_tls toFrame env inner = (.error e, inner1)) :
    inner1 = inner := by
  unfold create_authenticated_connection_tls at h
  cases hca : connect_and_auth_tls toFrame env inner.config with
  | error e2 => rw [hca] at h; cases h; rfl
  | ok fr => rw [hca] at h; cases h

/-- Claim C7: the Connection Factory (plain and TLS variants) transitions
the connection-state flag to Connected exactly on full authentication
success: any connect, handshake, or authentication failure leaves the
flag untouched, and a successful build sets it to Connected and nothing
else. -/
theorem connection_factory_state_transition :
    (∀ (toFrame : RedisCommand → Except RedisError Frame) (env : NetEnv)
       (inner inner1 : ClientInner) (e : RedisError),
       create_authenticated_connection toFrame env inner = (.error e, inner1) →
       inner1 = inner)
    ∧ (∀ (toFrame : RedisCommand → Except RedisError Frame) (env : NetEnv)
       (inner inner1 : ClientInner) (tr : Transport),
       create_authenticated_connection toFrame env inner = (.ok tr, inner1) →
       inner1 = { inner with state := ClientState.Connected })
    ∧ (∀ (toFrame : RedisCommand → Except RedisError Frame) (env : NetEnv)
       (inner inner1 : ClientInner) (e : RedisError),
       create_authenticated_connection_tls toFrame env inner = (.error e, inner1) →
       inner1 = inner)
    ∧ (∀ (toFrame : RedisCommand → Except RedisError Frame) (env : NetEnv)
       (inner inner1 : ClientInner) (tr : Transport),
       create_authenticated_connection_tls toFrame env inner = (.ok tr, inner1) →
       inner1 = { inner with state := ClientState.Connected }) := by
  refine ⟨?_, ?_, ?_, ?_⟩
  · intro toFrame env inner inner1 e h
    exact create_authenticated_connection_error_state toFrame env inner inner1 e h
  · intro toFrame env inner inner1 tr h
    exact create_authenticated_connection_ok_state toFrame env inner inner1 tr h
  · intro toFrame env inner inner1 e h
    exact create_authenticated_connection_tls_error_state toFrame env inner inner1 e h
  · intro toFrame env inner inner1 tr h
    exact create_authenticated_connection_tls_ok_state toFrame env inner inner1 tr h

/-- Witness for C7 at concrete environments: a failed socket connect
leaves the disconnected state untouched, a bare connect whose
authentication is rejected leaves it untouched too, and a fully
authenticated build sets Connected. -/
theorem connection_factory_state_transition_witness :
    (create_authenticated_connection toFrameW ⟨some errW, none, ⟨[], [], []⟩⟩ innerW).2 = innerW
    ∧ (create_authenticated_connection toFrameW
        ⟨none, none, ⟨[], [.ok (Frame.SimpleString "NOPE")], []⟩⟩
        ⟨⟨"deadpool-1", some "pw", false⟩, ClientState.Disconnected⟩).2
      = ⟨⟨"deadpool-1", some "pw", false⟩, ClientState.Disconnected⟩
    ∧ (create_authenticated_connection toFrameW ⟨none, none, ⟨[], [.ok (Frame.SimpleString "OK")], []⟩⟩ innerW).2
      = { innerW with state := ClientState.Connected } := by
  refine ⟨?_, ?_, ?_⟩
  · exact connection_factory_state_transition.1 toFrameW ⟨some errW, none, ⟨[], [], []⟩⟩
      innerW _ errW (by rfl)
  · exact connection_factory_state_transition.1 toFrameW
      ⟨none, none, ⟨[], [.ok (Frame.SimpleString "NOPE")], []⟩⟩
      ⟨⟨"deadpool-1", some "pw", false⟩, ClientState.Disconnected⟩ _
      (RedisError.new RedisErrorKind.Auth "NOPE") (by rfl)
  · exact connection_factory_state_transition.2.1 toFrameW
      ⟨none, none, ⟨[], [.ok (Frame.SimpleString "OK")], []⟩⟩ innerW _
      ⟨[], [], [Frame.Array [Frame.BulkString "CMD", Frame.BulkString "deadpool-1"]]⟩ (by rfl)

/-- Claim C10: every successful per-seed connection made during cluster
discovery sets the connection-state flag to Connected, whatever happens
to the disposable connection afterwards: if the seed resolves and the
factory succeeds, the seed scan leaves the state flag Connected, even
when the topology query then fails and the seed yields no cache. -/
theorem read_cluster_state_sets_connected
    (toFrame : RedisCommand → Except RedisError Frame)
    (parse : String → Except RedisError ClusterKeyCache)
    (inner inner1 : ClientInner) (env : SeedEnv) (uses_tls : Bool)
    (addr : String) (tr : Transport)
    (hres : env.resolveResult = .ok addr)
    (hconn : (if uses_tls then create_authenticated_connection_tls toFrame env.net inner
              else create_authenticated_connection toFrame env.net inner) = (.ok tr, inner1)) :
    (read_cluster_state toFrame parse inner env uses_tls).2.state = ClientState.Connected := by
  have hst : inner1 = { inner with state := ClientState.Connected } := by
    cases uses_tls with
    | false =>
      simp only [Bool.false_eq_true, if_false] at hconn
      exact create_authenticated_connection_ok_state toFrame env.net inner inner1 tr hconn
    | true =>
      simp only [if_true] at hconn
      exact create_authenticated_connection_tls_ok_state toFrame env.net inner inner1 tr hconn
  unfold read_cluster_state
  rw [hres, hconn, hst]

/-- Witness for C10: a seed whose handshake succeeds but whose topology
query returns an error frame yields no cache, yet leaves the client state
flag Connected — a discovery scan can set Connected with no steady-state
connection established. -/
theorem read_cluster_state_sets_connected_witness :
    (read_cluster_state toFrameW parseW innerW seedErrorFrameW false).2.state
      = ClientState.Connected
    ∧ (read_cluster_state toFrameW parseW innerW seedErrorFrameW false).1 = none := by
  constructor
  · exact read_cluster_state_sets_connected toFrameW parseW innerW
      ⟨cfgW, ClientState.Connected⟩ seedErrorFrameW false "10.0.0.4" _ rfl rfl
  · rfl

theorem read_cluster_state_fst (toFrame : RedisCommand → Except RedisError Frame)
    (parse : String → Except RedisError ClusterKeyCache)
    (inner : ClientInner) (env : SeedEnv) (u : Bool) :
    (read_cluster_state toFrame parse inner env u).1
      = seedResult toFrame parse inner.config env u := by
  obtain ⟨cfg, s⟩ := inner
  unfold seedResult read_cluster_state
  cases hres : env.resolveResult with
  | error e => rfl
  | ok addr =>
    cases u with
    | false =>
      simp only [Bool.false_eq_true, if_false, create_authenticated_connection]
      cases hca : connect_and_auth toFrame env.net cfg <;> rfl
    | true =>
      simp only [if_true, create_authenticated_connection_tls]
      cases hca : connect_and_auth_tls toFrame env.net cfg <;> rfl

theorem read_cluster_state_config (toFrame : RedisCommand → Except RedisError Frame)
    (parse : String → Except RedisError ClusterKeyCache)
    (inner : ClientInner) (env : SeedEnv) (u : Bool) :
    (read_cluster_state toFrame parse inner env u).2.config = inner.config := by
  obtain ⟨cfg, s⟩ := inner
  unfold read_cluster_state
  cases hres : env.resolveResult with
  | error e => rfl
  | ok addr =>
    cases u with
    | false =>
      simp only [Bool.false_eq_true, if_false, create_authenticated_connection]
      cases hca : connect_and_auth toFrame env.net cfg <;> rfl
    | true =>
      simp only [if_true, create_authenticated_connection_tls]
      cases hca : connect_and_auth_tls toFrame env.net cfg <;> rfl

theorem read_cluster_nodes_loop_all_fail
    (toFrame : RedisCommand → Except RedisError Frame)
    (parse : String → Except RedisError ClusterKeyCache) (u : Bool)
    (cfg : ClientConfig) :
    ∀ (seeds : List SeedEnv) (inner : ClientInner), inner.config = cfg →
    (∀ env ∈ seeds, seedResult toFrame parse cfg env u = none) →
    (read_cluster_nodes_loop toFrame parse u seeds inner).1
      = .error (RedisError.new RedisErrorKind.Unknown
          "Could not read cluster state from any known node in the cluster.") := by
  intro seeds
  induction seeds with
  | nil => intro inner hcfg hall; rfl
  | cons seed rest ih =>
    intro inner hcfg hall
    have hfst : (read_cluster_state toFrame parse inner seed u).1 = none := by
      rw [read_cluster_state_fst, hcfg]
      exact hall seed (List.mem_cons_self seed rest)
    unfold read_cluster_nodes_loop
    cases hrc : read_cluster_state toFrame parse inner seed u with
    | mk fst snd =>
      rw [hrc] at hfst
      simp only at hfst
      subst hfst
      have hcfg2 : snd.config = cfg := by
        have := read_cluster_state_config toFrame parse inner seed u
        rw [hrc] at this
        simpa [hcfg] using this
      exact ih snd hcfg2 (fun env henv => hall env (List.mem_cons_of_mem seed henv))

theorem read_cluster_nodes_loop_first_success
    (toFrame : RedisCommand → Except RedisError Frame)
    (parse : String → Except RedisError ClusterKeyCache) (u : Bool)
    (cfg : ClientConfig) :
    ∀ (pre : List SeedEnv) (s : SeedEnv) (post : List SeedEnv)
      (inner : ClientInner) (cache : ClusterKeyCache), inner.config = cfg →
    (∀ env ∈ pre, seedResult toFrame parse cfg env u = none) →
    seedResult toFrame parse cfg s u = some cache →
    (read_cluster_nodes_loop toFrame parse u (pre ++ s :: post) inner).1 = .ok cache := by
  intro pre
  induction pre with
  | nil =>
    intro s post inner cache hcfg hpre hs
    have hfst : (read_cluster_state toFrame parse inner s u).1 = some cache := by
      rw [read_cluster_state_fst, hcfg]; exact hs
    simp only [List.nil_append]
    unfold read_cluster_nodes_loop
    cases hrc : read_cluster_state toFrame parse inner s u with
    | mk fst snd =>
      rw [hrc] at hfst
      simp only at hfst
      subst hfst
      rfl
  | cons seed rest ih =>
    intro s post inner cache hcfg hpre hs
    have hfst : (read_cluster_state toFrame parse inner seed u).1 = none := by
      rw [read_cluster_state_fst, hcfg]
      exact hpre seed (List.mem_cons_self seed rest)
    simp only [List.cons_append]
    unfold read_cluster_nodes_loop
    cases hrc : read_cluster_state toFrame parse inner seed u with
    | mk fst snd =>
      rw [hrc] at hfst
      simp only at hfst
      subst hfst
      have hcfg2 : snd.config = cfg := by
        have := read_cluster_state_config toFrame parse inner seed u
        rw [hrc] at this
        simpa [hcfg] using this
      exact ih s post snd cache hcfg2
        (fun env henv => hpre env (List.mem_cons_of_mem seed henv)) hs

/-- Claim C3: Cluster Discovery scans the configured seeds in order,
recovering locally from every per-seed failure; if some prefix of seeds
all fail and the next seed succeeds with a cache, that cache is returned
regardless of any seeds that follow (none of them is needed), and if
every seed fails, discovery fails with the single Unknown/unreachable
error.  Per-seed failure of every kind (resolution, connection,
request/response, error frame, text conversion, parse) is exercised by
the witness through the same `seedResult` outcome. -/
theorem read_cluster_nodes_discovery
    (toFrame : RedisCommand → Except RedisError Frame)
    (parse : String → Except RedisError ClusterKeyCache)
    (inner : ClientInner) :
    (∀ seeds : List SeedEnv,
       (∀ env ∈ seeds, seedResult toFrame parse inner.config env inner.config.usesTls = none) →
       (read_cluster_nodes toFrame parse inner (.ok seeds)).1
         = .error (RedisError.new RedisErrorKind.Unknown
             "Could not read cluster state from any known node in the cluster."))
    ∧ (∀ (pre : List SeedEnv) (s : SeedEnv) (post : List SeedEnv) (cache : ClusterKeyCache),
       (∀ env ∈ pre, seedResult toFrame parse inner.config env inner.config.usesTls = none) →
       seedResult toFrame parse inner.config s inner.config.usesTls = some cache →
       (read_cluster_nodes toFrame parse inner (.ok (pre ++ s :: post))).1 = .ok cache) := by
  constructor
  · intro seeds hall
    unfold read_cluster_nodes
    exact read_cluster_nodes_loop_all_fail toFrame parse inner.config.usesTls inner.config
      seeds inner rfl hall
  · intro pre s post cache hpre hs
    unfold read_cluster_nodes
    exact read_cluster_nodes_loop_first_success toFrame parse inner.config.usesTls inner.config
      pre s post inner cache rfl hpre hs

/-- Witness for C3 with a concrete scan: five seeds failing in five
different ways (resolution failure, connect failure, request failure,
error-frame reply, text-conversion failure) followed by a seed whose
reply fails to parse make discovery fail with the Unknown error; and the
same five failing seeds followed by a parsable seed yield that seed's
cache even with a further (also parsable) seed behind it. -/
theorem read_cluster_nodes_discovery_witness :
    (read_cluster_nodes toFrameW parseFailW innerW
       (.ok [seedResolveFailW, seedConnectFailW, seedRequestFailW, seedErrorFrameW,
             seedNoTextW, seedTopologyW "n1"])).1
      = .error (RedisError.new RedisErrorKind.Unknown
          "Could not read cluster state from any known node in the cluster.")
    ∧ (read_cluster_nodes toFrameW parseW innerW
       (.ok ([seedResolveFailW, seedConnectFailW, seedRequestFailW, seedErrorFrameW,
              seedNoTextW] ++ seedTopologyW "n1" :: [seedTopologyW "n2"]))).1
      = .ok ⟨"n1"⟩ := by
  constructor
  · exact (read_cluster_nodes_discovery toFrameW parseFailW innerW).1
      [seedResolveFailW, seedConnectFailW, seedRequestFailW, seedErrorFrameW,
       seedNoTextW, seedTopologyW "n1"]
      (by intro env henv; fin_cases henv <;> rfl)
  · exact (read_cluster_nodes_discovery toFrameW parseW innerW).2
      [seedResolveFailW, seedConnectFailW, seedRequestFailW, seedErrorFrameW, seedNoTextW]
      (seedTopologyW "n1") [seedTopologyW "n2"] ⟨"n1"⟩
      (by intro env henv; fin_cases henv <;> rfl) rfl

theorem RedisSink.send_ok_spec (s s1 : RedisSink) (f : Frame)
    (h : s.send f = .ok s1) :
    s1.sinkOf.buffered = [] ∧ s1.sinkOf.wire = s.sinkOf.wire ++ s.sinkOf.buffered ++ [f] := by
  cases s with
  | Tcp inner =>
    obtain ⟨fs, b, w⟩ := inner
    rcases fs with _ | ⟨e?, fs⟩
    · simp only [RedisSink.send, Sink.send, Except.map] at h
      cases h
      exact ⟨rfl, rfl⟩
    · rcases e? with _ | e
      · simp only [RedisSink.send, Sink.send, Except.map] at h
        cases h
        exact ⟨rfl, rfl⟩
      · simp [RedisSink.send, Sink.send, Except.map] at h
  | Tls inner =>
    obtain ⟨fs, b, w⟩ := inner
    rcases fs with _ | ⟨e?, fs⟩
    · simp only [RedisSink.send, Sink.send, Except.map] at h
      cases h
      exact ⟨rfl, rfl⟩
    · rcases e? with _ | e
      · simp only [RedisSink.send, Sink.send, Except.map] at h
        cases h
        exact ⟨rfl, rfl⟩
      · simp [RedisSink.send, Sink.send, Except.map] at h

theorem RedisSink.feed_ok_spec (s s1 : RedisSink) (f : Frame)
    (h : s.feed f = .ok s1) :
    s1.sinkOf.buffered = s.sinkOf.buffered ++ [f] ∧ s1.sinkOf.wire = s.sinkOf.wire := by
  cases s with
  | Tcp inner =>
    obtain ⟨fs, b, w⟩ := inner
    rcases fs with _ | ⟨e?, fs⟩
    · simp only [RedisSink.feed, Sink.feed, Except.map] at h
      cases h
      exact ⟨rfl, rfl⟩
    · rcases e? with _ | e
      · simp only [RedisSink.feed, Sink.feed, Except.map] at h
        cases h
        exact ⟨rfl, rfl⟩
      · simp [RedisSink.feed, Sink.feed, Except.map] at h
  | Tls inner =>
    obtain ⟨fs, b, w⟩ := inner
    rcases fs with _ | ⟨e?, fs⟩
    · simp only [RedisSink.feed, Sink.feed, Except.map] at h
      cases h
      exact ⟨rfl, rfl⟩
    · rcases e? with _ | e
      · simp only [RedisSink.feed, Sink.feed, Except.map] at h
        cases h
        exact ⟨rfl, rfl⟩
      · simp [RedisSink.feed, Sink.feed, Except.map] at h

theorem RedisSink.fail_spec (s : RedisSink) (f : Frame) (e : RedisError)
    (h : s.nextFail = some e) :
    s.send f = .error e ∧ s.feed f = .error e := by
  cases s with
  | Tcp inner =>
    obtain ⟨fs, b, w⟩ := inner
    rcases fs with _ | ⟨e?, fs⟩
    · simp [RedisSink.nextFail, RedisSink.sinkOf, Sink.nextFail] at h
    · rcases e? with _ | e2
      · simp [RedisSink.nextFail, RedisSink.sinkOf, Sink.nextFail] at h
      · simp only [RedisSink.nextFail, RedisSink.sinkOf, Sink.nextFail,
          Option.some.injEq] at h
        subst h
        exact ⟨rfl, rfl⟩
  | Tls inner =>
    obtain ⟨fs, b, w⟩ := inner
    rcases fs with _ | ⟨e?, fs⟩
    · simp [RedisSink.nextFail, RedisSink.sinkOf, Sink.nextFail] at h
    · rcases e? with _ | e2
      · simp [RedisSink.nextFail, RedisSink.sinkOf, Sink.nextFail] at h
      · simp only [RedisSink.nextFail, RedisSink.sinkOf, Sink.nextFail,
          Option.some.injEq] at h
        subst h
        exact ⟨rfl, rfl⟩

theorem write_command_ok_cases
    (toFrame : RedisCommand → Except RedisError Frame) (now : Nat)
    (st st' : WriteState) (frame : Frame)
    (hf : toFrame st.command.command = .ok frame)
    (h : write_command toFrame now st = (.ok (), st')) :
    (flush_condition st.counters st.command.command = true
      ∧ st.sink.send frame = .ok st'.sink
      ∧ st'.counters = st.counters.reset_feed_count.incr_in_flight
      ∧ st'.command = ⟨st.command.command.incr_attempted, some now⟩)
    ∨ (flush_condition st.counters st.command.command = false
      ∧ st.sink.feed frame = .ok st'.sink
      ∧ st'.counters = st.counters.incr_feed_count.incr_in_flight
      ∧ st'.command = ⟨st.command.command.incr_attempted, some now⟩) := by
  simp only [write_command, hf] at h
  by_cases hc : flush_condition st.counters st.command.command = true
  · left
    have hc2 : flush_condition st.counters st.command.command.incr_attempted = true := hc
    rw [if_pos hc2] at h
    cases hs : st.sink.send frame with
    | error e => rw [hs] at h; cases h
    | ok sink1 =>
      rw [hs] at h
      simp only [Prod.mk.injEq] at h
      rw [← h.2]
      exact ⟨hc, rfl, rfl, rfl⟩
  · right
    have hc2 : ¬ flush_condition st.counters st.command.command.incr_attempted = true := hc
    rw [if_neg hc2] at h
    cases hs : st.sink.feed frame with
    | error e => rw [hs] at h; cases h
    | ok sink1 =>
      rw [hs] at h
      simp only [Prod.mk.injEq] at h
      rw [← h.2]
      exact ⟨by simpa using hc, rfl, rfl, rfl⟩

/-- Claim C1: a successfully dispatched command is flushed if and only if
the flush condition holds — the advisory `should_send` signal, a
QUIT-equivalent command, a transaction-ending kind, or a locked result
channel: when it holds the outbound buffer is emptied onto the wire
together with the new frame, when it fails the frame only joins the
buffer and nothing reaches the wire; in particular a QUIT-equivalent
command always satisfies the flush condition, also with `should_send`
false. -/
theorem write_command_flush_iff
    (toFrame : RedisCommand → Except RedisError Frame) (now : Nat)
    (st st' : WriteState) (frame : Frame)
    (hf : toFrame st.command.command = .ok frame)
    (h : write_command toFrame now st = (.ok (), st')) :
    (st.command.command.is_quit = true →
      flush_condition st.counters st.command.command = true)
    ∧ (flush_condition st.counters st.command.command = true →
      st'.sink.sinkOf.buffered = []
      ∧ st'.sink.sinkOf.wire
        = st.sink.sinkOf.wire ++ st.sink.sinkOf.buffered ++ [frame])
    ∧ (flush_condition st.counters st.command.command = false →
      st'.sink.sinkOf.buffered = st.sink.sinkOf.buffered ++ [frame]
      ∧ st'.sink.sinkOf.wire = st.sink.sinkOf.wire) := by
  refine ⟨?_, ?_, ?_⟩
  · intro hq
    simp [flush_condition, hq]
  · intro hc
    rcases write_command_ok_cases toFrame now st st' frame hf h with
      ⟨_, hs, _, _⟩ | ⟨hc2, _, _, _⟩
    · exact RedisSink.send_ok_spec st.sink st'.sink frame hs
    · rw [hc] at hc2; cases hc2
  · intro hc
    rcases write_command_ok_cases toFrame now st st' frame hf h with
      ⟨hc2, _, _, _⟩ | ⟨_, hfd, _, _⟩
    · rw [hc] at hc2; cases hc2
    · exact RedisSink.feed_ok_spec st.sink st'.sink frame hfd

/-- Witness for C1: a QUIT command with `should_send` false still
satisfies the flush condition and empties the buffer onto the wire,
while an ordinary command with `should_send` false and nothing forcing a
flush is only buffered. -/
theorem write_command_flush_iff_witness :
    flush_condition ⟨false, 5, 9⟩ ⟨RedisCommandKind.Quit, [], 0, false⟩ = true
    ∧ ((RedisSink.Tcp ⟨[], [], [Frame.Integer 0, Frame.Integer 1,
          Frame.Array [Frame.BulkString "CMD"]]⟩).sinkOf.buffered = []
      ∧ (RedisSink.Tcp ⟨[], [], [Frame.Integer 0, Frame.Integer 1,
          Frame.Array [Frame.BulkString "CMD"]]⟩).sinkOf.wire
        = (RedisSink.Tcp ⟨[], [Frame.Integer 1], [Frame.Integer 0]⟩).sinkOf.wire
          ++ (RedisSink.Tcp ⟨[], [Frame.Integer 1], [Frame.Integer 0]⟩).sinkOf.buffered
          ++ [Frame.Array [Frame.BulkString "CMD"]])
    ∧ ((RedisSink.Tcp ⟨[], [Frame.Integer 1, Frame.Array [Frame.BulkString "CMD"]],
          [Frame.Integer 0]⟩).sinkOf.buffered
        = (RedisSink.Tcp ⟨[], [Frame.Integer 1], [Frame.Integer 0]⟩).sinkOf.buffered
          ++ [Frame.Array [Frame.BulkString "CMD"]]
      ∧ (RedisSink.Tcp ⟨[], [Frame.Integer 1, Frame.Array [Frame.BulkString "CMD"]],
          [Frame.Integer 0]⟩).sinkOf.wire
        = (RedisSink.Tcp ⟨[], [Frame.Integer 1], [Frame.Integer 0]⟩).sinkOf.wire) := by
  refine ⟨rfl, ?_, ?_⟩
  · exact (write_command_flush_iff toFrameW 42
      ⟨.Tcp ⟨[], [Frame.Integer 1], [Frame.Integer 0]⟩, ⟨false, 5, 9⟩,
        ⟨⟨RedisCommandKind.Quit, [], 0, false⟩, none⟩⟩
      ⟨.Tcp ⟨[], [], [Frame.Integer 0, Frame.Integer 1,
          Frame.Array [Frame.BulkString "CMD"]]⟩, ⟨false, 0, 10⟩,
        ⟨⟨RedisCommandKind.Quit, [], 1, false⟩, some 42⟩⟩
      (Frame.Array [Frame.BulkString "CMD"]) rfl rfl).2.1 rfl
  · exact (write_command_flush_iff toFrameW 42
      ⟨.Tcp ⟨[], [Frame.Integer 1], [Frame.Integer 0]⟩, ⟨false, 5, 9⟩,
        ⟨⟨RedisCommandKind.Other "GET", [], 0, false⟩, none⟩⟩
      ⟨.Tcp ⟨[], [Frame.Integer 1, Frame.Array [Frame.BulkString "CMD"]],
          [Frame.Integer 0]⟩, ⟨false, 6, 10⟩,
        ⟨⟨RedisCommandKind.Other "GET", [], 1, false⟩, some 42⟩⟩
      (Frame.Array [Frame.BulkString "CMD"]) rfl rfl).2.2 rfl

/-- Claim C2: on every successful dispatch the flush branch resets the
feed counter to 0, the feed branch increments it by exactly 1, and the
in-flight counter is incremented by exactly 1 in both branches (and the
advisory flag is not touched). -/
theorem write_command_counter_updates
    (toFrame : RedisCommand → Except RedisError Frame) (now : Nat)
    (st st' : WriteState) (frame : Frame)
    (hf : toFrame st.command.command = .ok frame)
    (h : write_command toFrame now st = (.ok (), st')) :
    st'.counters.inFlight = st.counters.inFlight + 1
    ∧ (flush_condition st.counters st.command.command = true →
      st'.counters.feedCount = 0)
    ∧ (flush_condition st.counters st.command.command = false →
      st'.counters.feedCount = st.counters.feedCount + 1) := by
  rcases write_command_ok_cases toFrame now st st' frame hf h with
    ⟨hc, _, hcnt, _⟩ | ⟨hc, _, hcnt, _⟩
  · refine ⟨by rw [hcnt]; rfl, fun _ => by rw [hcnt]; rfl, fun hcf => ?_⟩
    rw [hc] at hcf; cases hcf
  · refine ⟨by rw [hcnt]; rfl, fun hcf => ?_, fun _ => by rw [hcnt]; rfl⟩
    rw [hc] at hcf; cases hcf

/-- Witness for C2: a flushing dispatch at feed count 5 ends with feed
count 0 and in-flight 10; a feeding dispatch ends with feed count 6 and
in-flight 10. -/
theorem write_command_counter_updates_witness :
    (Counters.mk false 0 10).inFlight = (Counters.mk false 5 9).inFlight + 1
    ∧ (Counters.mk false 0 10).feedCount = 0
    ∧ (Counters.mk false 6 10).feedCount = (Counters.mk false 5 9).feedCount + 1 := by
  refine ⟨?_, ?_, ?_⟩
  · exact (write_command_counter_updates toFrameW 42
      ⟨.Tcp ⟨[], [], []⟩, ⟨false, 5, 9⟩, ⟨⟨RedisCommandKind.Quit, [], 0, false⟩, none⟩⟩
      ⟨.Tcp ⟨[], [], [Frame.Array [Frame.BulkString "CMD"]]⟩, ⟨false, 0, 10⟩,
        ⟨⟨RedisCommandKind.Quit, [], 1, false⟩, some 42⟩⟩
      (Frame.Array [Frame.BulkString "CMD"]) rfl rfl).1
  · exact (write_command_counter_updates toFrameW 42
      ⟨.Tcp ⟨[], [], []⟩, ⟨false, 5, 9⟩, ⟨⟨RedisCommandKind.Quit, [], 0, false⟩, none⟩⟩
      ⟨.Tcp ⟨[], [], [Frame.Array [Frame.BulkString "CMD"]]⟩, ⟨false, 0, 10⟩,
        ⟨⟨RedisCommandKind.Quit, [], 1, false⟩, some 42⟩⟩
      (Frame.Array [Frame.BulkString "CMD"]) rfl rfl).2.1 rfl
  · exact (write_command_counter_updates toFrameW 42
      ⟨.Tcp ⟨[], [], []⟩, ⟨false, 5, 9⟩, ⟨⟨RedisCommandKind.Other "GET", [], 0, false⟩, none⟩⟩
      ⟨.Tcp ⟨[], [Frame.Array [Frame.BulkString "CMD"]], []⟩, ⟨false, 6, 10⟩,
        ⟨⟨RedisCommandKind.Other "GET", [], 1, false⟩, some 42⟩⟩
      (Frame.Array [Frame.BulkString "CMD"]) rfl rfl).2.2 rfl

/-- Claim C8: when the socket write or flush fails, the I/O error is
propagated to the caller unchanged and the state is exactly what the
mutations had reached: the command keeps its attempt-counter increment
and its network-start timestamp, while the sink and both counters are
left as they were. -/
theorem write_command_io_error
    (toFrame : RedisCommand → Except RedisError Frame) (now : Nat)
    (st : WriteState) (frame : Frame) (e : RedisError)
    (hf : toFrame st.command.command = .ok frame)
    (hfail : st.sink.nextFail = some e) :
    write_command toFrame now st =
      (.error e, { st with command := ⟨st.command.command.incr_attempted, some now⟩ }) := by
  obtain ⟨hsend, hfeed⟩ := RedisSink.fail_spec st.sink frame e hfail
  simp only [write_command, hf]
  by_cases hc : flush_condition st.counters st.command.command.incr_attempted = true
  · rw [if_pos hc, hsend]
  · rw [if_neg hc, hfeed]

/-- Witness for C8: a dispatch onto a sink whose next operation fails
with a broken-pipe error returns that error, keeps the counters at their
prior values, and keeps the command's new attempt count and timestamp. -/
theorem write_command_io_error_witness :
    write_command toFrameW 42
      ⟨.Tcp ⟨[some errW], [], []⟩, ⟨false, 5, 9⟩,
        ⟨⟨RedisCommandKind.Other "GET", [], 2, false⟩, none⟩⟩
      = (.error errW,
          ⟨.Tcp ⟨[some errW], [], []⟩, ⟨false, 5, 9⟩,
            ⟨⟨RedisCommandKind.Other "GET", [], 3, false⟩, some 42⟩⟩) := by
  exact write_command_io_error toFrameW 42
    ⟨.Tcp ⟨[some errW], [], []⟩, ⟨false, 5, 9⟩,
      ⟨⟨RedisCommandKind.Other "GET", [], 2, false⟩, none⟩⟩
    (Frame.Array [Frame.BulkString "CMD"]) errW rfl rfl

/-- Claim C9: when converting the command to a wire frame fails, the
dispatch returns that error with no observable mutation at all — the
whole state (command attempt counter and timestamp, sink, and both
counters) is returned exactly as it was. -/
theorem write_command_frame_error
    (toFrame : RedisCommand → Except RedisError Frame) (now : Nat)
    (st : WriteState) (e : RedisError)
    (hf : toFrame st.command.command = .error e) :
    write_command toFrame now st = (.error e, st) := by
  simp only [write_command, hf]

/-- Witness for C9: a frame conversion that rejects the command makes the
dispatch return the conversion error and the state unchanged. -/
theorem write_command_frame_error_witness :
    write_command (fun _ => .error (RedisError.new RedisErrorKind.ProtocolError "bad args")) 42
      ⟨.Tcp ⟨[], [Frame.Integer 1], []⟩, ⟨true, 5, 9⟩,
        ⟨⟨RedisCommandKind.Other "GET", ["k"], 2, false⟩, none⟩⟩
      = (.error (RedisError.new RedisErrorKind.ProtocolError "bad args"),
          ⟨.Tcp ⟨[], [Frame.Integer 1], []⟩, ⟨true, 5, 9⟩,
            ⟨⟨RedisCommandKind.Other "GET", ["k"], 2, false⟩, none⟩⟩) := by
  exact write_command_frame_error
    (fun _ => .error (RedisError.new RedisErrorKind.ProtocolError "bad args")) 42
    ⟨.Tcp ⟨[], [Frame.Integer 1], []⟩, ⟨true, 5, 9⟩,
      ⟨⟨RedisCommandKind.Other "GET", ["k"], 2, false⟩, none⟩⟩
    (RedisError.new RedisErrorKind.ProtocolError "bad args") rfl

end FredConn
